import Mathlib

/-!
Shallow embedding of `home-assistant-streamdeck-yaml.py`: the in-memory
entity-state store, the websocket message handlers, the button rendering
parameter resolution, and the press-callback dispatch logic, together with
theorems settling the specification claims about them.
-/

set_option autoImplicit false

namespace HASD

/-- An entity state record as carried in `new_state` payloads and in the
`get_states` result list: an `entity_id`, the canonical `state` string and an
open attribute mapping (`dict[str, Any]` in the source, modelled with string
values). -/
structure StateRecord where
  entity_id : String
  state : String
  attrs : List (String × String)
  deriving DecidableEq, Repr

/-- The in-process state store: Python `dict[str, Any]` mapping entity id to
its last-known state record, modelled as an association list with unique keys
maintained by `set`. -/
abbrev StateStore := List (String × StateRecord)

/-- Python `state[eid]` read (`dict.get`). -/
def StateStore.lookup (s : StateStore) (k : String) : Option StateRecord :=
  match s with
  | [] => none
  | (k', v) :: rest => if k' = k then some v else StateStore.lookup rest k

/-- Python `state[eid] = v`: replace the existing entry or append a new one. -/
def StateStore.set (s : StateStore) (k : String) (v : StateRecord) : StateStore :=
  match s with
  | [] => [(k, v)]
  | (k', v') :: rest =>
      if k' = k then (k', v) :: rest else (k', v') :: StateStore.set rest k v

/-- An inbound JSON frame from the websocket, restricted to the shapes the
source inspects: `data["type"]` is `"event"` (with
`data["event"]["event_type"]`, and for state-changed events
`data["event"]["data"]["entity_id"]` / `["new_state"]`), `"result"` (with
`data["id"]` and `data["result"]`), or something else. -/
inductive InFrame where
  | event (event_type : String) (entity_id : String) (new_state : StateRecord)
  | result (id : Nat) (result : List StateRecord)
  | other (type : String)
  deriving DecidableEq, Repr

/-- `Button` configuration (the pydantic model), with `service_data` as a
string-valued mapping. -/
structure Button where
  entity_id : Option String := none
  service : Option String := none
  service_data : List (String × String) := []
  text : String := ""
  text_color : Option String := none
  text_size : Nat := 12
  icon : Option String := none
  icon_mdi : Option String := none
  deriving DecidableEq, Repr

/-- `Button.domain`: `self.service.split(".", 1)[0]` — the part of the service
string before the first dot (the whole string when it has no dot), or `None`
when no service is configured. -/
def Button.domain (b : Button) : Option String :=
  match b.service with
  | none => none
  | some s => some (String.mk (s.toList.takeWhile (fun c => c ≠ '.')))

/-- `DEFAULT_MDI_ICONS = {"light": "lightbulb", "switch": "power-socket-eu"}`. -/
def DEFAULT_MDI_ICONS : List (String × String) :=
  [("light", "lightbulb"), ("switch", "power-socket-eu")]

/-- Python `d in DEFAULT_MDI_ICONS` / `DEFAULT_MDI_ICONS[d]` over the
association list (with `None in DEFAULT_MDI_ICONS` being false). -/
def defaultIcon (d : Option String) : Option String :=
  match d with
  | none => none
  | some dom =>
      match DEFAULT_MDI_ICONS.find? (fun p => p.1 = dom) with
      | none => none
      | some p => some p.2

/-- `_next_id`: increment the global `_ID_COUNTER` and return it, modelled by
explicit counter passing: returns (fresh id, new counter). -/
def _next_id (counter : Nat) : Nat × Nat :=
  (counter + 1, counter + 1)

/-- The ids produced by `n` successive calls to `_next_id`, starting from
counter value `c`. -/
def idSeq : Nat → Nat → List Nat
  | 0, _ => []
  | n + 1, c => (_next_id c).1 :: idSeq n (_next_id c).2

/-- `_keys`: the key indices of the buttons bound to `entity_id` (Python
`[i for i, button in enumerate(buttons) if button.entity_id == entity_id]`;
`None == entity_id` is false). -/
def _keys (entity_id : String) (buttons : List Button) : List Nat :=
  (buttons.enum.filter (fun p => p.2.entity_id = some entity_id)).map
    (fun p => p.1)

/-- `_update_state`: on a `"event"` frame whose `event_type` is
`"state_changed"`, store the `new_state` payload under its `entity_id` and
re-render the keys bound to that entity; any other frame does nothing.
Returns the updated store and the list of re-rendered key indices. -/
def _update_state (state : StateStore) (data : InFrame) (buttons : List Button) :
    StateStore × List Nat :=
  match data with
  | .event event_type eid new_state =>
      if event_type = "state_changed" then
        (state.set eid new_state, _keys eid buttons)
      else
        (state, [])
  | _ => (state, [])

/-- `handle_state_changes`'s receive loop restricted to its effect on the
store: fold `_update_state` over the inbound frames in arrival order. -/
def processFrames (state : StateStore) (frames : List InFrame)
    (buttons : List Button) : StateStore :=
  match frames with
  | [] => state
  | f :: rest => processFrames (_update_state state f buttons).1 rest buttons

/-- The `new_state` payload `frame` carries for entity `e`: set exactly when
`frame` is a state-changed event frame naming `e`. -/
def frameNaming (e : String) : InFrame → Option StateRecord
  | .event event_type eid ns =>
      if event_type = "state_changed" ∧ eid = e then some ns else none
  | _ => none

/-- The `new_state` payload of the last state-changed event frame naming
entity `e` in `frames`, if any. -/
def lastNaming (e : String) : List InFrame → Option StateRecord
  | [] => none
  | f :: rest => (lastNaming e rest).or (frameNaming e f)

/-- An outbound JSON payload sent over the websocket, covering the shapes the
source serializes. -/
inductive Payload where
  | auth (access_token : String)
  | getStates (id : Nat)
  | subscribeEvents (id : Nat) (event_type : String)
  | unsubscribeEvents (id : Nat) (subscription : Nat)
  | callService (id : Nat) (domain : String) (service : String)
      (service_data : List (String × String))
  deriving DecidableEq, Repr

/-- `subscribe_state_changes`: send one `subscribe_events` payload with a
fresh id. Returns the sent payload and the new counter. -/
def subscribe_state_changes (counter : Nat) : Payload × Nat :=
  (.subscribeEvents (_next_id counter).1 "state_changed", (_next_id counter).2)

/-- `unsubscribe`: send one `unsubscribe_events` payload carrying a fresh id
and referencing subscription `id_`. Returns the sent payload and the new
counter. -/
def unsubscribe (counter : Nat) (id_ : Nat) : Payload × Nat :=
  (.unsubscribeEvents (_next_id counter).1 id_, (_next_id counter).2)

/-- Python `state["entity_id"]: state` dict comprehension over the `result`
list: later entries with the same `entity_id` overwrite earlier ones. -/
def buildStateDict (entries : List StateRecord) : StateStore :=
  entries.foldl (fun st r => st.set r.entity_id r) []

/-- The receive loop of `get_states`: discard frames until one whose `type`
is `"result"` arrives (the source checks only `data["type"] == "result"`) and
return its `result` list; `none` models the loop never returning. -/
def recvUntilResult : List InFrame → Option (List StateRecord)
  | [] => none
  | f :: rest =>
      match f with
      | .result _ entries => some entries
      | _ => recvUntilResult rest

/-- `get_states`: draw a fresh correlation id, send a `get_states` request,
then receive frames in a loop (`recvUntilResult`), returning on the first
frame whose `type` is `"result"`: build the state dict from that frame's
`result` list, send an `unsubscribe_events` referencing the request id, and
return. The result is the list of sent payloads, the state dict, and the
final counter. -/
def get_states (counter : Nat) (frames : List InFrame) :
    Option (List Payload × StateStore × Nat) :=
  match recvUntilResult frames with
  | none => none
  | some entries =>
      some ([.getStates (_next_id counter).1,
             (unsubscribe (_next_id counter).2 (_next_id counter).1).1],
            buildStateDict entries,
            (unsubscribe (_next_id counter).2 (_next_id counter).1).2)

/-- Python `service.split(".")` on the underlying character list: split at
every `'.'`, keeping empty pieces (so the result always has
`count '.' + 1` pieces). -/
def splitDot : List Char → List (List Char)
  | [] => [[]]
  | c :: rest =>
      if c = '.' then [] :: splitDot rest
      else
        match splitDot rest with
        | [] => [[c]]
        | h :: t => (c :: h) :: t

/-- `call_service`: `domain, service = service.split(".")` — the two-value
unpacking raises `ValueError` unless the split yields exactly two pieces —
then send a `call_service` payload with a fresh id carrying `data` verbatim.
`Except.error` models the raised `ValueError` (nothing is sent). -/
def call_service (counter : Nat) (service : String)
    (data : List (String × String)) : Except String (Payload × Nat) :=
  match splitDot service.toList with
  | [domain, svc] =>
      let r := _next_id counter
      .ok (.callService r.1 (String.mk domain) (String.mk svc) data, r.2)
  | _ => .error "ValueError: unpacking mismatch"

/-- The icon source chosen by `render_key_image`: a static file when
`icon_filename` is set, else the MDI icon when `icon_mdi` is set, else a
blank (icon-less) background. -/
inductive IconSpec where
  | file (name : String)
  | mdi (name : String)
  | blank
  deriving DecidableEq, Repr

/-- The icon branch of `render_key_image`. -/
def render_key_icon (icon_filename icon_mdi : Option String) : IconSpec :=
  match icon_filename with
  | some f => .file f
  | none =>
      match icon_mdi with
      | some m => .mdi m
      | none => .blank

/-- The rendering parameters `update_key_image` passes to
`render_key_image`. -/
structure RenderParams where
  label_text : String
  text_color : String
  icon_mdi : Option String
  icon_filename : Option String
  font_size : Nat
  deriving DecidableEq, Repr

/-- `update_key_image`'s parameter resolution for one button, parametric over
the Jinja template collaborator `renderJinja` (`_render_jinja(text,
data={"state": state})` in the source). When the button's `entity_id` is a
key of the store: templated text, text color from the configured color
template, else `"orangered"` when the state is `"on"`, else `"white"`, and
`icon_mdi` from the explicit field, else the domain default when neither
`icon` nor `icon_mdi` is set. Otherwise: literal text, configured color or
`"white"` (Python `or`, so an empty configured color also falls back), and
the explicit `icon_mdi`. A pressed key always renders with `"green"` text. -/
def update_key_image (renderJinja : String → StateRecord → String)
    (button : Button) (state : StateStore) (key_pressed : Bool) :
    RenderParams :=
  let resolved :=
    match button.entity_id with
    | some eid =>
        match state.lookup eid with
        | some st =>
            let text := renderJinja button.text st
            let text_color :=
              match button.text_color with
              | some tc => renderJinja tc st
              | none => if st.state = "on" then "orangered" else "white"
            let icon_mdi :=
              match button.icon_mdi with
              | some m => some m
              | none =>
                  if button.icon = none then
                    match defaultIcon button.domain with
                    | some d => some d
                    | none => none
                  else none
            (text, text_color, icon_mdi)
        | none =>
            (button.text,
             match button.text_color with
             | some tc => if tc = "" then "white" else tc
             | none => "white",
             button.icon_mdi)
    | none =>
        (button.text,
         match button.text_color with
         | some tc => if tc = "" then "white" else tc
         | none => "white",
         button.icon_mdi)
  { label_text := resolved.1
    text_color := if key_pressed then "green" else resolved.2.1
    icon_mdi := resolved.2.2
    icon_filename := button.icon
    font_size := button.text_size }

/-- The observable effect of one invocation of `key_change_callback`: the key
re-rendered (with its pressed flag) and the service call sent, if any. -/
structure KeyEventEffect where
  render : Nat × Bool
  service_call : Option (String × List (String × String))
  deriving DecidableEq, Repr

/-- `key_change_callback` (built by `_on_press_callback`): look up
`buttons[key]` (`none` models the `IndexError` on an out-of-range key),
re-render that key with the event's pressed flag, and — only when the key was
pressed and the button has a service — call the service with the configured
`service_data`, or with `{"entity_id": entity_id}` when `service_data` is
empty and the button has an entity id. -/
def key_change_callback (buttons : List Button) (key : Nat)
    (key_pressed : Bool) : Option KeyEventEffect :=
  match buttons.get? key with
  | none => none
  | some button =>
      let call :=
        if key_pressed then
          match button.service with
          | none => none
          | some svc =>
              let data :=
                if button.service_data = [] then
                  match button.entity_id with
                  | some eid => [("entity_id", eid)]
                  | none => button.service_data
                else button.service_data
              some (svc, data)
        else none
      some { render := (key, key_pressed), service_call := call }

/-- One pre-yield connection attempt of `setup_ws`'s `while True` body, as
seen by the environment: the attempt is reset by the peer while connecting,
reset while performing the auth handshake, or completes the handshake (these
are the resets raised before `yield websocket`; a reset raised in the
caller's body after the yield is modelled separately by `RecvOutcome` and
`runSession`). -/
inductive ConnOutcome where
  | resetDuringConnect
  | resetDuringAuth
  | ok
  deriving DecidableEq, Repr

/-- An action in the trace of a `setup_ws` session: the generator's own
actions, the caller's receive calls inside the `async with` body, and the
`RuntimeError` that `asynccontextmanager.__aexit__` raises when the
generator yields a second time after an exception was thrown into it. -/
inductive WsAction where
  | connect
  | sendAuth
  | recvAuthResponse
  | closeTransport
  | sleep (seconds : Nat)
  | yieldConn
  | callerRecvOk
  | callerRecvReset
  | raiseRuntimeError
  deriving DecidableEq, Repr

/-- The actions of one iteration of `setup_ws`'s `while True` body under the
given outcome: `websockets.connect`, then the auth send/recv inside the
`async with` (whose exit closes the transport, also when a
`ConnectionResetError` escapes), and on a caught reset the
`asyncio.sleep(5)` of the `except` branch before retrying; a completed
handshake yields the websocket. -/
def attemptTrace : ConnOutcome → List WsAction
  | .resetDuringConnect => [.connect, .closeTransport, .sleep 5]
  | .resetDuringAuth => [.connect, .sendAuth, .closeTransport, .sleep 5]
  | .ok => [.connect, .sendAuth, .recvAuthResponse, .yieldConn]

/-- The run of the `setup_ws` generator up to its first `yield` (the
`__aenter__` phase of the async context manager) over a schedule of
connection outcomes: keep retrying on `ConnectionResetError` until an
attempt completes the handshake, yielding the accumulated action trace;
`none` models the loop still retrying after the whole schedule (no
successful attempt, so the caller is still blocked entering the context). -/
def setup_ws : List ConnOutcome → Option (List WsAction)
  | [] => none
  | o :: rest =>
      match o with
      | .ok => some (attemptTrace .ok)
      | .resetDuringConnect =>
          match setup_ws rest with
          | none => none
          | some t => some (attemptTrace .resetDuringConnect ++ t)
      | .resetDuringAuth =>
          match setup_ws rest with
          | none => none
          | some t => some (attemptTrace .resetDuringAuth ++ t)

/-- One `websocket.recv()` call of the caller's receive loop
(`handle_state_changes`, inside the `async with setup_ws(...)` body): it
returns a frame, or raises `ConnectionResetError`. -/
inductive RecvOutcome where
  | frame
  | reset
  deriving DecidableEq, Repr

/-- How a `setup_ws` session ends: still running its receive loop (every
receive so far returned a frame), or terminated by the `RuntimeError` that
`asynccontextmanager` raises after a reset was thrown into the generator. -/
inductive SessionResult where
  | running
  | runtimeError
  deriving DecidableEq, Repr

/-- The caller's receive loop over a schedule of receive outcomes: the trace
of receive calls up to and including the first reset (if any), and whether a
reset occurred; receives after a reset never run. -/
def recvLoop : List RecvOutcome → List WsAction × Bool
  | [] => ([], false)
  | .frame :: rest =>
      (WsAction.callerRecvOk :: (recvLoop rest).1, (recvLoop rest).2)
  | .reset :: _ => ([WsAction.callerRecvReset], true)

/-- A full `async with setup_ws(...)` session: the generator runs to its
first `yield` (`setup_ws pre`), then the caller's receive loop runs
(`recvLoop recvs`). When a receive raises `ConnectionResetError`, the error
propagates out of the body and `asynccontextmanager.__aexit__` throws it into
the generator at `yield websocket`: the `async with websockets.connect` exit
closes the transport, the `except ConnectionResetError` catches it and sleeps
5 seconds, and the loop re-establishes and re-authenticates (`setup_ws post`)
— but the generator can only yield once per context entry, so its second
`yield` makes `__aexit__` raise `RuntimeError("generator didn't stop after
athrow()")` to the caller, ending the session. `none` models a session still
blocked connecting (pre) or reconnecting inside the athrow (post). -/
def runSession (pre : List ConnOutcome) (recvs : List RecvOutcome)
    (post : List ConnOutcome) : Option (List WsAction × SessionResult) :=
  match setup_ws pre with
  | none => none
  | some t1 =>
      if (recvLoop recvs).2 then
        match setup_ws post with
        | none => none
        | some t3 =>
            some (t1 ++ (recvLoop recvs).1 ++
                    [WsAction.closeTransport, WsAction.sleep 5] ++ t3 ++
                    [WsAction.raiseRuntimeError],
                  SessionResult.runtimeError)
      else
        some (t1 ++ (recvLoop recvs).1, SessionResult.running)
/-! ## Helper lemmas -/

theorem StateStore.lookup_set_self (s : StateStore) (k : String)
    (v : StateRecord) : (s.set k v).lookup k = some v := by
  induction s with
  | nil => simp [StateStore.set, StateStore.lookup]
  | cons p rest ih =>
      obtain ⟨k', v'⟩ := p
      by_cases h : k' = k
      · simp [StateStore.set, StateStore.lookup, h]
      · simp [StateStore.set, StateStore.lookup, h, ih]

theorem StateStore.lookup_set_ne (s : StateStore) (k e : String)
    (v : StateRecord) (h : k ≠ e) : (s.set k v).lookup e = s.lookup e := by
  induction s with
  | nil => simp [StateStore.set, StateStore.lookup, h]
  | cons p rest ih =>
      obtain ⟨k', v'⟩ := p
      by_cases hk : k' = k
      · subst hk
        simp [StateStore.set, StateStore.lookup, h]
      · simp [StateStore.set, StateStore.lookup, hk, ih]

theorem processFrames_lookup_of_lastNaming_none (e : String)
    (frames : List InFrame) (buttons : List Button) :
    lastNaming e frames = none →
    ∀ s : StateStore, (processFrames s frames buttons).lookup e = s.lookup e := by
  induction frames with
  | nil => intro _ s; rfl
  | cons f rest ih =>
      intro h s
      rw [lastNaming, Option.or_eq_none] at h
      obtain ⟨hrest, hf⟩ := h
      rw [processFrames]
      cases f with
      | event et eid ns =>
          rw [frameNaming] at hf
          rw [_update_state]
          by_cases hsc : et = "state_changed"
          · have heid : eid ≠ e := by
              intro hh
              rw [if_pos ⟨hsc, hh⟩] at hf
              exact Option.noConfusion hf
            rw [if_pos hsc]
            rw [ih hrest]
            exact StateStore.lookup_set_ne s eid e ns heid
          · rw [if_neg hsc]
            exact ih hrest s
      | result i es => exact ih hrest s
      | other t => exact ih hrest s

theorem idSeq_eq_range' (n : Nat) : ∀ c : Nat, idSeq n c = List.range' (c + 1) n := by
  induction n with
  | zero => intro c; rfl
  | succ n ih =>
      intro c
      rw [idSeq, List.range'_succ]
      simp only [_next_id]
      rw [ih (c + 1)]

theorem splitDot_ne_nil (cs : List Char) : splitDot cs ≠ [] := by
  cases cs with
  | nil => simp [splitDot]
  | cons c rest =>
      rw [splitDot]
      by_cases h : c = '.'
      · simp [h]
      · cases hr : splitDot rest with
        | nil => simp [h, hr]
        | cons x t => simp [h, hr]

theorem splitDot_length (cs : List Char) :
    (splitDot cs).length = cs.count '.' + 1 := by
  induction cs with
  | nil => rfl
  | cons c rest ih =>
      rw [splitDot]
      by_cases h : c = '.'
      · subst h
        simp [List.count_cons, ih]
      · cases hr : splitDot rest with
        | nil => exact absurd hr (splitDot_ne_nil rest)
        | cons x t =>
            rw [hr] at ih
            simp only [List.length_cons] at ih
            simp only [if_neg h, hr, List.length_cons, List.count_cons]
            have hb : (c == '.') = false := by
              exact beq_false_of_ne h
            simp [hb]
            omega

/-! ## Claim theorems -/

/-- C9: the correlation ids produced by `n` successive calls to `_next_id`
starting from the initial counter value `0` are exactly `1, 2, ..., n`
(`List.range' 1 n`), hence pairwise strictly increasing and pairwise
distinct, so every outbound request needing a reply receives a unique id. -/
theorem c9_next_id_sequence (n : Nat) :
    idSeq n 0 = List.range' 1 n ∧
    (idSeq n 0).Pairwise (· < ·) ∧ (idSeq n 0).Nodup := by
  have h : idSeq n 0 = List.range' 1 n := idSeq_eq_range' n 0
  refine ⟨h, ?_, ?_⟩
  · rw [h]
    have hp := List.pairwise_lt_range' 1 n 1 (by omega)
    simpa using hp
  · rw [h]
    exact List.nodup_range' 1 n 1 (by omega)

/-- C1: last-write-wins for the state store: for every starting store and
every sequence of inbound frames processed by `_update_state` in arrival
order, the entry for entity `e` after processing equals the `new_state`
payload of the last state-changed event frame naming `e` in the sequence. -/
theorem c1_last_write_wins (frames : List InFrame) (buttons : List Button)
    (e : String) (r : StateRecord) :
    lastNaming e frames = some r →
    ∀ state : StateStore,
      (processFrames state frames buttons).lookup e = some r := by
  induction frames with
  | nil => intro h; exact absurd h (by simp [lastNaming])
  | cons f rest ih =>
      intro h state
      rw [lastNaming] at h
      cases hr : lastNaming e rest with
      | some rr =>
          rw [hr] at h
          simp only [Option.or] at h
          injection h with h2
          subst h2
          rw [processFrames]
          exact ih hr _
      | none =>
          rw [hr, Option.none_or] at h
          cases f with
          | event et eid ns =>
              rw [frameNaming] at h
              by_cases hc : et = "state_changed" ∧ eid = e
              · rw [if_pos hc] at h
                injection h with h2
                subst h2
                obtain ⟨hsc, heid⟩ := hc
                subst hsc
                subst heid
                rw [processFrames, _update_state, if_pos rfl]
                rw [processFrames_lookup_of_lastNaming_none _ rest buttons hr]
                exact StateStore.lookup_set_self state _ _
              · rw [if_neg hc] at h
                exact Option.noConfusion h
          | result i es => exact Option.noConfusion h
          | other t => exact Option.noConfusion h

/-- C1 witness: after two state-changed events for `light.x` (first `"off"`,
then `"on"`) the store holds the second payload. -/
theorem c1_last_write_wins_witness :
    (processFrames []
        [InFrame.event "state_changed" "light.x" ⟨"light.x", "off", []⟩,
         InFrame.event "state_changed" "light.x" ⟨"light.x", "on", []⟩]
        []).lookup "light.x" = some ⟨"light.x", "on", []⟩ :=
  c1_last_write_wins _ [] "light.x" ⟨"light.x", "on", []⟩ (by decide) []

/-- C10: `call_service` terminates normally (returns a payload) exactly for
service strings containing exactly one `'.'`: with zero or more than one dot
the two-value unpacking of `service.split(".")` raises `ValueError` before
any frame is sent, even though `Button.domain` accepts any service string by
splitting only at the first dot. -/
theorem c10_call_service_single_dot (c : Nat) (s : String)
    (d : List (String × String)) :
    ((call_service c s d).isOk = true ↔ s.toList.count '.' = 1) ∧
    (∀ b : Button, b.service = some s → (Button.domain b).isSome = true) := by
  have hlen := splitDot_length s.toList
  constructor
  · constructor
    · intro hp
      unfold call_service at hp
      cases hl : splitDot s.toList with
      | nil => exact absurd hl (splitDot_ne_nil _)
      | cons a l =>
          cases l with
          | nil =>
              rw [hl] at hp
              exact Bool.noConfusion hp
          | cons b l2 =>
              cases l2 with
              | nil =>
                  rw [hl] at hlen
                  simp only [List.length_cons, List.length_nil] at hlen
                  omega
              | cons x t =>
                  rw [hl] at hp
                  exact Bool.noConfusion hp
    · intro hcount
      rw [hcount] at hlen
      unfold call_service
      cases hl : splitDot s.toList with
      | nil => rw [hl] at hlen; simp at hlen
      | cons a l =>
          cases l with
          | nil => rw [hl] at hlen; simp at hlen
          | cons b l2 =>
              cases l2 with
              | nil => rfl
              | cons x t =>
                  rw [hl] at hlen
                  simp only [List.length_cons, List.length_nil] at hlen
                  omega
  · intro b hb
    simp [Button.domain, hb]

/-- C10 witness: `"light.turn_on"` has exactly one dot and `call_service`
succeeds on it; `Button.domain` is defined for a button with that service. -/
theorem c10_call_service_single_dot_witness :
    (call_service 0 "light.turn_on" []).isOk = true ∧
    (Button.domain { service := some "light.turn_on" }).isSome = true :=
  ⟨(c10_call_service_single_dot 0 "light.turn_on" []).1.mpr (by decide),
   (c10_call_service_single_dot 0 "light.turn_on" []).2
     { service := some "light.turn_on" } rfl⟩

theorem mem_keys_iff (e : String) (buttons : List Button) (i : Nat) :
    i ∈ _keys e buttons ↔ ∃ b, buttons[i]? = some b ∧ b.entity_id = some e := by
  unfold _keys
  rw [List.mem_map]
  constructor
  · rintro ⟨⟨j, b⟩, hp, rfl⟩
    rw [List.mem_filter] at hp
    obtain ⟨hmem, hP⟩ := hp
    rw [List.mk_mem_enum_iff_getElem?] at hmem
    exact ⟨b, hmem, by simpa using hP⟩
  · rintro ⟨b, hb, he⟩
    refine ⟨(i, b), ?_, rfl⟩
    rw [List.mem_filter]
    exact ⟨List.mk_mem_enum_iff_getElem?.mpr hb, by simpa using he⟩

/-- C5: per inbound frame, `_update_state` re-renders exactly the keys whose
button binds the affected entity id (the key indices returned are exactly the
positions `i` with `buttons[i].entity_id == eid`), and a frame whose type is
not `"event"` or whose `event_type` is not `"state_changed"` is ignored
silently: the store is unchanged and no key is re-rendered. -/
theorem c5_update_state_effect (state : StateStore) (buttons : List Button) :
    (∀ (eid : String) (ns : StateRecord) (i : Nat),
      i ∈ (_update_state state (InFrame.event "state_changed" eid ns)
            buttons).2 ↔
        ∃ b, buttons[i]? = some b ∧ b.entity_id = some eid) ∧
    (∀ f : InFrame,
      (∀ (eid : String) (ns : StateRecord),
        f ≠ InFrame.event "state_changed" eid ns) →
      _update_state state f buttons = (state, [])) := by
  constructor
  · intro eid ns i
    rw [_update_state, if_pos rfl]
    exact mem_keys_iff eid buttons i
  · intro f hf
    cases f with
    | event et eid ns =>
        rw [_update_state]
        by_cases hsc : et = "state_changed"
        · subst hsc
          exact absurd rfl (hf eid ns)
        · rw [if_neg hsc]
    | result i es => rfl
    | other t => rfl

/-- C5 witness: a state-changed event for `light.x` re-renders key 0 (bound
to `light.x`) and not key 1 (bound to `switch.y`); a ping frame leaves the
store unchanged and renders nothing. -/
theorem c5_update_state_effect_witness :
    (0 ∈ (_update_state []
        (InFrame.event "state_changed" "light.x" ⟨"light.x", "on", []⟩)
        [{ entity_id := some "light.x" }, { entity_id := some "switch.y" }]).2) ∧
    _update_state [] (InFrame.other "pong")
        [{ entity_id := some "light.x" }, { entity_id := some "switch.y" }] =
      ([], []) :=
  ⟨((c5_update_state_effect []
      [{ entity_id := some "light.x" }, { entity_id := some "switch.y" }]).1
        "light.x" ⟨"light.x", "on", []⟩ 0).mpr
      ⟨{ entity_id := some "light.x" }, rfl, rfl⟩,
   (c5_update_state_effect []
      [{ entity_id := some "light.x" }, { entity_id := some "switch.y" }]).2
        (InFrame.other "pong") (fun _ _ h => InFrame.noConfusion h)⟩

/-- C6: on a press of a button carrying a service, the service is called with
the configured `service_data` when it is non-empty; only when it is empty and
the button has an entity id is the single implicit parameter
`{"entity_id": entity_id}` used; with neither, the sent `service_data` is
empty. `call_service` embeds the given data verbatim into the outbound
payload. -/
theorem c6_press_service_data (buttons : List Button) (key : Nat) (b : Button)
    (svc : String) (hb : buttons.get? key = some b)
    (hs : b.service = some svc) :
    (key_change_callback buttons key true = some
      { render := (key, true),
        service_call := some (svc,
          if b.service_data = [] then
            match b.entity_id with
            | some eid => [("entity_id", eid)]
            | none => []
          else b.service_data) }) ∧
    (∀ (c : Nat) (data : List (String × String)) (p : Payload) (c' : Nat),
      call_service c svc data = Except.ok (p, c') →
      ∃ i dm sv, p = Payload.callService i dm sv data) := by
  constructor
  · unfold key_change_callback
    rw [hb]
    simp only [hs]
    by_cases hsd : b.service_data = []
    · rw [if_pos hsd, if_pos hsd]
      cases b.entity_id with
      | some eid => simp
      | none => rw [hsd]; simp
    · rw [if_neg hsd, if_neg hsd]
      simp
  · intro c data p c' hok
    unfold call_service at hok
    cases hl : splitDot svc.toList with
    | nil => rw [hl] at hok; exact Except.noConfusion hok
    | cons a l =>
        cases l with
        | nil => rw [hl] at hok; exact Except.noConfusion hok
        | cons bb l2 =>
            cases l2 with
            | nil =>
                rw [hl] at hok
                injection hok with h2
                have hp : Payload.callService (_next_id c).1 (String.mk a)
                    (String.mk bb) data = p := congrArg Prod.fst h2
                exact ⟨_, _, _, hp.symm⟩
            | cons x t => rw [hl] at hok; exact Except.noConfusion hok

/-- C6 witness: a button with entity `light.x`, service `light.turn_on` and
empty configured `service_data` is pressed: the implicit
`{"entity_id": "light.x"}` is sent. -/
theorem c6_press_service_data_witness :
    key_change_callback
        [{ entity_id := some "light.x", service := some "light.turn_on" }]
        0 true = some
      { render := (0, true),
        service_call := some ("light.turn_on", [("entity_id", "light.x")]) } := by
  have h := (c6_press_service_data
      [{ entity_id := some "light.x", service := some "light.turn_on" }]
      0 { entity_id := some "light.x", service := some "light.turn_on" }
      "light.turn_on" rfl rfl).1
  rw [h]
  rfl

/-- C7: a release event (pressed flag false) never causes a service call: the
effect of `key_change_callback` on a release is only a re-render of that key
with the normal (unpressed) variant; and whenever a service call is
dispatched at all, the pressed flag was true. -/
theorem c7_release_no_action (buttons : List Button) (key : Nat) :
    (∀ eff : KeyEventEffect,
      key_change_callback buttons key false = some eff →
      eff.service_call = none ∧ eff.render = (key, false)) ∧
    (∀ (pressed : Bool) (eff : KeyEventEffect),
      key_change_callback buttons key pressed = some eff →
      eff.service_call ≠ none → pressed = true) := by
  have hrel : ∀ eff : KeyEventEffect,
      key_change_callback buttons key false = some eff →
      eff.service_call = none ∧ eff.render = (key, false) := by
    intro eff he
    unfold key_change_callback at he
    cases hb : buttons.get? key with
    | none => rw [hb] at he; exact Option.noConfusion he
    | some b =>
        rw [hb] at he
        injection he with h2
        subst h2
        exact ⟨rfl, rfl⟩
  refine ⟨hrel, ?_⟩
  intro pressed eff he hcall
  cases pressed with
  | false => exact absurd (hrel eff he).1 hcall
  | true => rfl

/-- C7 witness: releasing key 0 of a button with a configured service yields
no service call and a normal re-render. -/
theorem c7_release_no_action_witness :
    ({ render := (0, false), service_call := none } :
        KeyEventEffect).service_call = none ∧
    ({ render := (0, false), service_call := none } :
        KeyEventEffect).render = (0, false) :=
  (c7_release_no_action
      [{ entity_id := some "light.x", service := some "light.turn_on" }] 0).1
    { render := (0, false), service_call := none } rfl

/-- C8: for a button bound to an entity present in the store and not pressed,
the resolved text color is the template evaluation of the configured color
field against the current state record when one is configured; else
`"orangered"` (the highlight color) when the state's canonical value is
`"on"`; else `"white"` (the default color). -/
theorem c8_text_color (renderJinja : String → StateRecord → String)
    (b : Button) (state : StateStore) (eid : String) (st : StateRecord)
    (hb : b.entity_id = some eid) (hs : state.lookup eid = some st) :
    (update_key_image renderJinja b state false).text_color =
      match b.text_color with
      | some tc => renderJinja tc st
      | none => if st.state = "on" then "orangered" else "white" := by
  simp only [update_key_image, hb, hs]
  simp

/-- C8 witness: a button with no configured color on an entity whose state is
`"on"` renders the highlight color `"orangered"`. -/
theorem c8_text_color_witness :
    (update_key_image (fun t _ => t) { entity_id := some "light.x" }
        [("light.x", ⟨"light.x", "on", []⟩)] false).text_color = "orangered" := by
  rw [c8_text_color (fun t _ => t) { entity_id := some "light.x" }
      [("light.x", ⟨"light.x", "on", []⟩)] "light.x" ⟨"light.x", "on", []⟩
      rfl rfl]
  rfl

/-- C4 counterexample: a button bound to `switch.fan` (service
`switch.toggle`) with no icon fields resolves the MDI icon
`"power-socket-eu"`, not `"power-socket"`; likewise a `light`-domain button
resolves `"lightbulb"`, not `"light"`. -/
theorem c4_default_icon_counterexample :
    (update_key_image (fun t _ => t)
        { entity_id := some "switch.fan", service := some "switch.toggle" }
        [("switch.fan", ⟨"switch.fan", "on", []⟩)] false).icon_mdi =
      some "power-socket-eu" ∧
    some "power-socket-eu" ≠ (some "power-socket" : Option String) ∧
    (update_key_image (fun t _ => t)
        { entity_id := some "light.kitchen", service := some "light.turn_on" }
        [("light.kitchen", ⟨"light.kitchen", "on", []⟩)] false).icon_mdi =
      some "lightbulb" ∧
    some "lightbulb" ≠ (some "light" : Option String) := by
  refine ⟨by decide, by decide, by decide, by decide⟩

/-- C4 (amended): for a button bound to an entity present in the store, the
resolved MDI icon is the explicitly configured one when set; otherwise, when
no static icon path is configured either, it is the `DEFAULT_MDI_ICONS`
default for the button's service domain (`"lightbulb"` for `light`,
`"power-socket-eu"` for `switch`, and none for `script`, which has no table
entry, so an icon-less key is rendered). -/
theorem c4_default_icon (renderJinja : String → StateRecord → String)
    (b : Button) (state : StateStore) (eid : String) (st : StateRecord)
    (hb : b.entity_id = some eid) (hs : state.lookup eid = some st) :
    ((update_key_image renderJinja b state false).icon_mdi =
      match b.icon_mdi with
      | some m => some m
      | none => if b.icon = none then defaultIcon b.domain else none) ∧
    defaultIcon (some "light") = some "lightbulb" ∧
    defaultIcon (some "switch") = some "power-socket-eu" ∧
    defaultIcon (some "script") = none ∧
    (b.icon = none → b.icon_mdi = none → defaultIcon b.domain = none →
      render_key_icon (update_key_image renderJinja b state false).icon_filename
        (update_key_image renderJinja b state false).icon_mdi = IconSpec.blank) := by
  have hcore : (update_key_image renderJinja b state false).icon_mdi =
      match b.icon_mdi with
      | some m => some m
      | none => if b.icon = none then defaultIcon b.domain else none := by
    simp only [update_key_image, hb, hs]
    cases hm : b.icon_mdi with
    | some m => rfl
    | none =>
        by_cases hI : b.icon = none
        · rw [if_pos hI, if_pos hI]
          cases hd : defaultIcon b.domain with
          | some d => rfl
          | none => rfl
        · rw [if_neg hI, if_neg hI]
  refine ⟨hcore, by decide, by decide, by decide, ?_⟩
  intro hI hm hd
  have hfile : (update_key_image renderJinja b state false).icon_filename =
      none := by
    simp [update_key_image, hI]
  have hmdi : (update_key_image renderJinja b state false).icon_mdi =
      none := by
    rw [hcore, hm]
    simp [hI, hd]
  rw [hfile, hmdi]
  rfl

/-- C4 witness: a `light`-domain button with no icon fields, bound to the
present entity `light.kitchen`, resolves the table default for its domain. -/
theorem c4_default_icon_witness :
    (update_key_image (fun t _ => t)
        { entity_id := some "light.kitchen", service := some "light.turn_on" }
        [("light.kitchen", ⟨"light.kitchen", "on", []⟩)] false).icon_mdi =
      some "lightbulb" := by
  have h := (c4_default_icon (fun t _ => t)
      { entity_id := some "light.kitchen", service := some "light.turn_on" }
      [("light.kitchen", ⟨"light.kitchen", "on", []⟩)] "light.kitchen"
      ⟨"light.kitchen", "on", []⟩ rfl rfl).1
  rw [h]
  decide

theorem recvUntilResult_append (pre : List InFrame) (rid : Nat)
    (entries : List StateRecord) (rest : List InFrame)
    (hpre : ∀ f ∈ pre, ∀ (i : Nat) (es : List StateRecord),
      f ≠ InFrame.result i es) :
    recvUntilResult (pre ++ InFrame.result rid entries :: rest) =
      some entries := by
  induction pre with
  | nil => rfl
  | cons f pre ih =>
      cases f with
      | result i es =>
          exact absurd rfl (hpre _ (List.mem_cons_self _ _) i es)
      | event et eid ns =>
          rw [List.cons_append]
          exact ih (fun g hg i es => hpre g (List.mem_cons_of_mem _ hg) i es)
      | other t =>
          rw [List.cons_append]
          exact ih (fun g hg i es => hpre g (List.mem_cons_of_mem _ hg) i es)

/-- C3 counterexample: the fresh correlation id of the request is `1`, yet
`get_states` returns on a `"result"` frame carrying the unrelated id `999`
and builds the store from it — the source checks only
`data["type"] == "result"`, never the id, refuting "blocks until a reply
carrying that same correlation id arrives". -/
theorem c3_get_states_counterexample :
    get_states 0 [InFrame.result 999 [⟨"light.x", "on", []⟩]] =
      some ([Payload.getStates 1, Payload.unsubscribeEvents 2 1],
            [("light.x", ⟨"light.x", "on", []⟩)], 2) ∧
    (999 : Nat) ≠ 1 := by
  refine ⟨by decide, by decide⟩

/-- C3 (amended): `get_states` sends a `get_states` request carrying a fresh
correlation id, then blocks, discarding frames, until the first frame whose
type is `"result"` arrives — regardless of the id that reply carries — builds
the initial store from that reply's `result` list keyed by `entity_id`, and
issues an `unsubscribe_events` request referencing the one-shot request's id
before returning. -/
theorem c3_get_states_first_result (counter : Nat) (pre : List InFrame)
    (rid : Nat) (entries : List StateRecord) (rest : List InFrame)
    (hpre : ∀ f ∈ pre, ∀ (i : Nat) (es : List StateRecord),
      f ≠ InFrame.result i es) :
    get_states counter (pre ++ InFrame.result rid entries :: rest) =
      some ([Payload.getStates (counter + 1),
             Payload.unsubscribeEvents (counter + 2) (counter + 1)],
            buildStateDict entries, counter + 2) := by
  unfold get_states
  rw [recvUntilResult_append pre rid entries rest hpre]
  rfl

/-- C3 witness: one non-result frame is discarded, then a result frame with
an arbitrary id `7` is accepted; the unsubscribe references the request
id `1`. -/
theorem c3_get_states_first_result_witness :
    get_states 0
        [InFrame.other "pong", InFrame.result 7 [⟨"light.x", "on", []⟩]] =
      some ([Payload.getStates 1, Payload.unsubscribeEvents 2 1],
            buildStateDict [⟨"light.x", "on", []⟩], 2) := by
  have h := c3_get_states_first_result 0 [InFrame.other "pong"] 7
      [⟨"light.x", "on", []⟩] []
      (by
        intro f hf i es hcontra
        rw [List.mem_singleton] at hf
        subst hf
        exact InFrame.noConfusion hcontra)
  exact h

theorem recvLoop_reset_flag (recvs : List RecvOutcome) :
    (recvLoop recvs).2 = true ↔ RecvOutcome.reset ∈ recvs := by
  induction recvs with
  | nil => simp [recvLoop]
  | cons o rest ih =>
      cases o with
      | frame => simp [recvLoop, ih]
      | reset => simp [recvLoop]

/-- C2: the code contradicts the claim. A connection reset raised during the
caller's receive (after `setup_ws` has yielded the websocket) is terminal:
`asynccontextmanager.__aexit__` throws it into the generator, whose `except`
catches it, backs off and reconnects with a replayed auth handshake — but the
generator's second `yield` makes the context manager raise
`RuntimeError("generator didn't stop after athrow()")` to the caller, so the
session result is `runtimeError` and the caller's receive never resumes; the
drop IS observed as a terminal failure. Only when no reset occurs during
receive does the session keep running. -/
theorem c2_reset_during_receive_terminal (pre post : List ConnOutcome)
    (recvs : List RecvOutcome) (tr : List WsAction) (res : SessionResult)
    (h : runSession pre recvs post = some (tr, res)) :
    (RecvOutcome.reset ∈ recvs →
      res = SessionResult.runtimeError ∧ WsAction.raiseRuntimeError ∈ tr) ∧
    (RecvOutcome.reset ∉ recvs → res = SessionResult.running) := by
  unfold runSession at h
  constructor
  · intro hreset
    have hflag : (recvLoop recvs).2 = true :=
      (recvLoop_reset_flag recvs).mpr hreset
    cases hpre : setup_ws pre with
    | none => rw [hpre] at h; exact Option.noConfusion h
    | some t1 =>
        rw [hpre] at h
        have h' : (if (recvLoop recvs).2 = true then
              match setup_ws post with
              | none => none
              | some t3 =>
                  some (t1 ++ (recvLoop recvs).1 ++
                          [WsAction.closeTransport, WsAction.sleep 5] ++ t3 ++
                          [WsAction.raiseRuntimeError],
                        SessionResult.runtimeError)
            else some (t1 ++ (recvLoop recvs).1, SessionResult.running)) =
            some (tr, res) := h
        rw [if_pos hflag] at h'
        cases hpost : setup_ws post with
        | none => rw [hpost] at h'; exact Option.noConfusion h'
        | some t3 =>
            rw [hpost] at h'
            injection h' with h2
            have hres : SessionResult.runtimeError = res :=
              congrArg Prod.snd h2
            have htr : t1 ++ (recvLoop recvs).1 ++
                [WsAction.closeTransport, WsAction.sleep 5] ++ t3 ++
                [WsAction.raiseRuntimeError] = tr := congrArg Prod.fst h2
            refine ⟨hres.symm, ?_⟩
            rw [← htr]
            simp
  · intro hnores
    have hflag : (recvLoop recvs).2 = false := by
      cases hh : (recvLoop recvs).2 with
      | true => exact absurd ((recvLoop_reset_flag recvs).mp hh) hnores
      | false => rfl
    cases hpre : setup_ws pre with
    | none => rw [hpre] at h; exact Option.noConfusion h
    | some t1 =>
        rw [hpre] at h
        have h' : (if (recvLoop recvs).2 = true then
              match setup_ws post with
              | none => none
              | some t3 =>
                  some (t1 ++ (recvLoop recvs).1 ++
                          [WsAction.closeTransport, WsAction.sleep 5] ++ t3 ++
                          [WsAction.raiseRuntimeError],
                        SessionResult.runtimeError)
            else some (t1 ++ (recvLoop recvs).1, SessionResult.running)) =
            some (tr, res) := h
        rw [if_neg (by rw [hflag]; exact Bool.false_ne_true)] at h'
        injection h' with h2
        exact (congrArg Prod.snd h2).symm

/-- C2 witness: one clean connect-and-auth, one reset during the caller's
receive, one successful reconnect inside the athrow — the session ends with
the `RuntimeError` in the trace, not with a resumed receive. -/
theorem c2_reset_during_receive_terminal_witness :
    SessionResult.runtimeError = SessionResult.runtimeError ∧
    WsAction.raiseRuntimeError ∈
      [WsAction.connect, WsAction.sendAuth, WsAction.recvAuthResponse,
       WsAction.yieldConn, WsAction.callerRecvReset, WsAction.closeTransport,
       WsAction.sleep 5, WsAction.connect, WsAction.sendAuth,
       WsAction.recvAuthResponse, WsAction.yieldConn,
       WsAction.raiseRuntimeError] :=
  (c2_reset_during_receive_terminal [ConnOutcome.ok] [ConnOutcome.ok]
      [RecvOutcome.reset]
      [WsAction.connect, WsAction.sendAuth, WsAction.recvAuthResponse,
       WsAction.yieldConn, WsAction.callerRecvReset, WsAction.closeTransport,
       WsAction.sleep 5, WsAction.connect, WsAction.sendAuth,
       WsAction.recvAuthResponse, WsAction.yieldConn,
       WsAction.raiseRuntimeError]
      SessionResult.runtimeError (by decide)).1 (by decide)

end HASD
